import Mathlib

/-!
Shallow embedding of the playback-source reconciliation layer of the
SPOTIFY__Clone repository.

Two source units are embedded:
* `src/unnamed/part_000` — the `useSpotifyPlayer` hook (remote Spotify
  Web Playback SDK adapter): its `PlayerState`, the `ready` / `not_ready` /
  `player_state_changed` listeners, and the 1000 ms position-simulation tick.
* `src/src/contexts/PlayerContext.tsx` — the playback coordinator
  (`PlayerProvider`): local queue/index/track state, the preview-audio
  fallback, the authority predicate `isPremiumPlayer`, the action methods
  (`playTrack`, `togglePlay`, `nextTrack`, `previousTrack`, `seek`,
  `setVolume`), the `ended` listener of the audio element, and the merged
  read model (`currentTrack`, `isPlaying`, `progress`, `duration`, `volume`).

Modelling conventions:
* JavaScript numbers are modelled as `Rat` (all arithmetic in these files is
  exact: `/ 1000`, `* 1000`, `+ 1000`, `min`).
* Nullable values (`string | null`, optional fields, `?.` access) are
  `Option _`.
* JavaScript truthiness of a nullable string (`!!s`): `null` and the empty
  string are falsy — captured by `truthyStr`.
* Calls into a backend (the SDK player methods, the Web API `play` request,
  the audio element's `play`/`pause`) are recorded as an explicit `Effect`
  list returned next to the new state, so dispatch is observable.
* The audio element is created in the provider's mount effect and lives for
  the provider's whole lifetime; the state models the mounted provider, so
  the element is always present (the `audioRef.current` null-guards of the
  source are then always true).
* `audio.play()` resolving is applied synchronously: in `playTrack` the
  `.then` continuation (`isPlaying := true, progress := 0`) is folded into
  the successful call.
-/

/-- JavaScript truthiness of a `string | null` value: `null` and `""` are
falsy, every other string is truthy. -/
def truthyStr : Option String → Bool
  | none => false
  | some s => s ≠ ""

/-- The track shape consumed by `PlayerContext.tsx` (`SpotifyTrack` from
`@/hooks/useSpotify`): only the fields the coordinator reads are `id`
(track identity) and `preview_url` (nullable preview-clip URL). -/
structure SpotifyTrack where
  id : String
  preview_url : Option String
  deriving Repr, DecidableEq

/-- Artist entry of the remote adapter's mapped current track:
`{ id: a.uri?.split(':')[2], name: a.name }`. -/
structure RemoteArtistView where
  id : Option String
  name : String
  deriving Repr, DecidableEq

/-- Album of the remote adapter's mapped current track:
`{ id: album?.uri?.split(':')[2], name: album?.name, images: album?.images || [] }`. -/
structure RemoteAlbumView where
  id : Option String
  name : Option String
  images : List String
  deriving Repr, DecidableEq

/-- The remote adapter's mapped current track, as built by the
`player_state_changed` listener of `useSpotifyPlayer`. -/
structure RemoteTrackView where
  id : String
  name : String
  duration_ms : Rat
  album : RemoteAlbumView
  artists : List RemoteArtistView
  deriving Repr, DecidableEq

/-- `PlayerState` of `useSpotifyPlayer` (src/unnamed/part_000): the remote
Spotify SDK adapter's state. -/
structure PlayerState where
  deviceId : Option String
  isReady : Bool
  isActive : Bool
  isPaused : Bool
  currentTrack : Option RemoteTrackView
  position : Rat
  duration : Rat
  volume : Rat
  deriving Repr, DecidableEq

/-- The initial `useState` value of `useSpotifyPlayer`. -/
def initialPlayerState : PlayerState :=
  { deviceId := none, isReady := false, isActive := false, isPaused := true
    currentTrack := none, position := 0, duration := 0, volume := 1/2 }

/-- Album object inside a `player_state_changed` payload's current track
(every field reached through `?.` in the source is optional). -/
structure WebAlbum where
  uri : Option String
  name : Option String
  images : Option (List String)
  deriving Repr, DecidableEq

/-- Artist object inside a `player_state_changed` payload's current track. -/
structure WebArtist where
  uri : Option String
  name : String
  deriving Repr, DecidableEq

/-- Current-track object of a `player_state_changed` payload. -/
structure WebTrack where
  id : String
  name : String
  duration_ms : Rat
  album : Option WebAlbum
  artists : Option (List WebArtist)
  deriving Repr, DecidableEq

/-- `track_window` of a `player_state_changed` payload. -/
structure TrackWindow where
  current_track : Option WebTrack
  deriving Repr, DecidableEq

/-- A non-null `player_state_changed` payload (the fields the listener
reads: `track_window`, `paused`, `position`). -/
structure WebPayload where
  track_window : Option TrackWindow
  paused : Bool
  position : Rat
  deriving Repr, DecidableEq

/-- `uri.split(':')[2]`: the third colon-delimited segment of a Spotify URI,
`none` when the URI has fewer than three segments. -/
def uriThirdSegment (uri : String) : Option String :=
  (uri.splitOn ":").get? 2

/-- The artist mapping of the `player_state_changed` listener:
`{ id: a.uri?.split(':')[2], name: a.name }`. -/
def mapWebArtist (a : WebArtist) : RemoteArtistView :=
  { id := a.uri.bind uriThirdSegment, name := a.name }

/-- The current-track mapping of the `player_state_changed` listener. -/
def mapWebTrack (t : WebTrack) : RemoteTrackView :=
  { id := t.id
    name := t.name
    duration_ms := t.duration_ms
    album :=
      { id := (t.album.bind WebAlbum.uri).bind uriThirdSegment
        name := t.album.bind WebAlbum.name
        images := (t.album.bind WebAlbum.images).getD [] }
    artists := ((t.artists.map (List.map mapWebArtist))).getD [] }

/-- The `ready` listener of `useSpotifyPlayer`:
`setState(prev => ({ ...prev, deviceId: device_id, isReady: true }))`. -/
def readyListener (device_id : String) (s : PlayerState) : PlayerState :=
  { s with deviceId := some device_id, isReady := true }

/-- The `not_ready` listener of `useSpotifyPlayer`:
`setState(prev => ({ ...prev, isReady: false }))`. The `device_id` delivered
with the event is only logged, never stored. -/
def notReadyListener (_device_id : String) (s : PlayerState) : PlayerState :=
  { s with isReady := false }

/-- The `player_state_changed` listener of `useSpotifyPlayer`. A `null`
payload only clears `isActive`; a non-null payload re-derives `isActive`,
`isPaused`, `currentTrack`, `position` and `duration`
(`currentTrack?.duration_ms || 0`). -/
def playerStateChangedListener (payload : Option WebPayload) (s : PlayerState) :
    PlayerState :=
  match payload with
  | none => { s with isActive := false }
  | some p =>
    let currentTrack := p.track_window.bind TrackWindow.current_track
    { s with
      isActive := true
      isPaused := p.paused
      currentTrack := currentTrack.map mapWebTrack
      position := p.position
      duration := (currentTrack.map WebTrack.duration_ms).getD 0 }

/-- One tick of the 1000 ms position-simulation interval of
`useSpotifyPlayer`:
`position: Math.min(prev.position + 1000, prev.duration)`. The interval only
runs while `isActive && !isPaused`. -/
def positionTick (s : PlayerState) : PlayerState :=
  { s with position := min (s.position + 1000) s.duration }

/-- Observable calls the coordinator makes into a backend: the remote SDK
adapter's methods, and the local audio element's mutations. -/
inductive Effect where
  | remotePlay (uri : String)
  | remoteTogglePlay
  | remoteNext
  | remotePrevious
  | remoteSeek (ms : Rat)
  | remoteSetVolume (v : Rat)
  | audioPlay (src : String)
  | audioResume
  | audioPause
  | audioSetCurrentTime (t : Rat)
  | audioSetVolume (v : Rat)
  deriving Repr, DecidableEq

/-- The `previewState` of `PlayerProvider` (local preview fallback). -/
structure PreviewState where
  isPlaying : Bool
  progress : Rat
  duration : Rat
  volume : Rat
  deriving Repr, DecidableEq

/-- The initial `previewState` of `PlayerProvider`. -/
def initialPreviewState : PreviewState :=
  { isPlaying := false, progress := 0, duration := 0, volume := 1/2 }

/-- The mutable fields of the provider's one `HTMLAudioElement`
(`audioRef.current`) that the coordinator writes. -/
structure AudioElem where
  src : Option String
  currentTime : Rat
  volume : Rat
  deriving Repr, DecidableEq

/-- The audio element as created in the mount effect
(`new Audio(); volume = previewState.volume`). -/
def initialAudioElem : AudioElem :=
  { src := none, currentTime := 0, volume := 1/2 }

/-- The whole state of `PlayerProvider`: the remote adapter's state plus the
coordinator's own `localQueue` / `localIndex` / `localTrack` /
`previewState` and the audio element. -/
structure CoordState where
  remote : PlayerState
  localQueue : List SpotifyTrack
  localIndex : Nat
  localTrack : Option SpotifyTrack
  preview : PreviewState
  audio : AudioElem
  deriving Repr, DecidableEq

/-- `isPremiumPlayer = !!(spotifyPlayer.isReady && spotifyPlayer.deviceId)`:
the authority predicate, re-computed on every render from the remote
adapter's state. Note `deviceId` is tested for JavaScript truthiness, not
merely for being non-null. -/
def isPremiumPlayer (s : CoordState) : Bool :=
  s.remote.isReady && truthyStr s.remote.deviceId

/-- `queue.findIndex(t => t.id === track.id)` of `playTrack`, as an
`Option Nat`: index of the first element with the given id, `none` when no
element matches (JavaScript returns `-1` there). -/
def findTrackIdx (id : String) : List SpotifyTrack → Option Nat
  | [] => none
  | t :: ts =>
    if t.id = id then some 0 else (findTrackIdx id ts).map (· + 1)

/-- `playTrack(track, queue?)` of `PlayerProvider`. If a queue is supplied it
replaces `localQueue` and `localIndex` becomes
`findIndex(t => t.id === track.id)` clamped to `0` when not found
(`idx >= 0 ? idx : 0`). `localTrack` is always replaced. Then dispatch:
remote `play('spotify:track:' + id)` when authoritative; otherwise, when the
track has a truthy `preview_url`, set the audio source and play it (the
resolved promise sets `isPlaying := true, progress := 0`); otherwise do
nothing further. -/
def playTrack (track : SpotifyTrack) (queue : Option (List SpotifyTrack))
    (s : CoordState) : CoordState × List Effect :=
  let s1 :=
    match queue with
    | some q =>
      { s with localQueue := q, localIndex := (findTrackIdx track.id q).getD 0 }
    | none => s
  let s2 := { s1 with localTrack := some track }
  if isPremiumPlayer s2 then
    (s2, [Effect.remotePlay ("spotify:track:" ++ track.id)])
  else if truthyStr track.preview_url then
    let src := track.preview_url.getD ""
    ({ s2 with
        audio := { s2.audio with src := some src }
        preview := { s2.preview with isPlaying := true, progress := 0 } },
      [Effect.audioPlay src])
  else
    (s2, [])

/-- `togglePlay` of `PlayerProvider`. -/
def togglePlay (s : CoordState) : CoordState × List Effect :=
  if isPremiumPlayer s then
    (s, [Effect.remoteTogglePlay])
  else if s.preview.isPlaying then
    ({ s with preview := { s.preview with isPlaying := false } },
      [Effect.audioPause])
  else
    ({ s with preview := { s.preview with isPlaying := true } },
      [Effect.audioResume])

/-- `handleNextTrack` of `PlayerProvider`: remote `nextTrack()` when
authoritative; otherwise, for a non-empty queue, wrap-around to
`(localIndex + 1) % length` and call `playTrack` with the same queue. -/
def handleNextTrack (s : CoordState) : CoordState × List Effect :=
  if isPremiumPlayer s then
    (s, [Effect.remoteNext])
  else if 0 < s.localQueue.length then
    let nextIdx := (s.localIndex + 1) % s.localQueue.length
    match s.localQueue.get? nextIdx with
    | some t => playTrack t (some s.localQueue) s
    | none => (s, [])
  else
    (s, [])

/-- `handlePreviousTrack` of `PlayerProvider`: remote `previousTrack()` when
authoritative; otherwise, for a non-empty queue, wrap-around to
`localIndex === 0 ? length - 1 : localIndex - 1` and call `playTrack` with
the same queue. -/
def handlePreviousTrack (s : CoordState) : CoordState × List Effect :=
  if isPremiumPlayer s then
    (s, [Effect.remotePrevious])
  else if 0 < s.localQueue.length then
    let prevIdx :=
      if s.localIndex = 0 then s.localQueue.length - 1 else s.localIndex - 1
    match s.localQueue.get? prevIdx with
    | some t => playTrack t (some s.localQueue) s
    | none => (s, [])
  else
    (s, [])

/-- `seek(time)` of `PlayerProvider`: remote `seek(time * 1000)` when
authoritative (the SDK uses milliseconds); otherwise set the audio element's
`currentTime` and `previewState.progress` to the requested time — the value
is NOT clamped by the coordinator. -/
def seek (time : Rat) (s : CoordState) : CoordState × List Effect :=
  if isPremiumPlayer s then
    (s, [Effect.remoteSeek (time * 1000)])
  else
    ({ s with
        audio := { s.audio with currentTime := time }
        preview := { s.preview with progress := time } },
      [Effect.audioSetCurrentTime time])

/-- `handleSetVolume(volume)` of `PlayerProvider`: remote `setVolume` when
authoritative; otherwise set the audio element's volume and
`previewState.volume`. -/
def handleSetVolume (volume : Rat) (s : CoordState) : CoordState × List Effect :=
  if isPremiumPlayer s then
    (s, [Effect.remoteSetVolume volume])
  else
    ({ s with
        audio := { s.audio with volume := volume }
        preview := { s.preview with volume := volume } },
      [Effect.audioSetVolume volume])

/-- The `ended` listener of the audio element (`handleEnded`): first set
`isPlaying := false`; then, for a non-empty queue, look at the wrap-around
next track; only when it has a truthy `preview_url` does the handler load
and play it, advance `localIndex`, replace `localTrack` and set
`isPlaying := true`. -/
def handleEnded (s : CoordState) : CoordState × List Effect :=
  let s1 := { s with preview := { s.preview with isPlaying := false } }
  if 0 < s1.localQueue.length then
    let nextIdx := (s1.localIndex + 1) % s1.localQueue.length
    match s1.localQueue.get? nextIdx with
    | some nextTrack =>
      if truthyStr nextTrack.preview_url then
        let src := nextTrack.preview_url.getD ""
        ({ s1 with
            audio := { s1.audio with src := some src }
            localIndex := nextIdx
            localTrack := some nextTrack
            preview := { s1.preview with isPlaying := true } },
          [Effect.audioPlay src])
      else
        (s1, [])
    | none => (s1, [])
  else
    (s1, [])

/-- The `timeupdate` listener of the audio element:
`progress := audio.currentTime`. -/
def handleTimeUpdate (s : CoordState) : CoordState :=
  { s with preview := { s.preview with progress := s.audio.currentTime } }

/-- The `error` listener of the audio element: `isPlaying := false`. -/
def handleAudioError (s : CoordState) : CoordState :=
  { s with preview := { s.preview with isPlaying := false } }

/-- Merged read model, `isPlaying`:
`isPremiumPlayer ? !spotifyPlayer.isPaused : previewState.isPlaying`. -/
def isPlayingView (s : CoordState) : Bool :=
  if isPremiumPlayer s then !s.remote.isPaused else s.preview.isPlaying

/-- Merged read model, `progress`:
`isPremiumPlayer ? spotifyPlayer.position / 1000 : previewState.progress`. -/
def progressView (s : CoordState) : Rat :=
  if isPremiumPlayer s then s.remote.position / 1000 else s.preview.progress

/-- Merged read model, `duration`:
`isPremiumPlayer ? spotifyPlayer.duration / 1000 : (previewState.duration || 30)`
— in fallback mode a falsy (zero) duration is reported as the 30-second
policy default. -/
def durationView (s : CoordState) : Rat :=
  if isPremiumPlayer s then s.remote.duration / 1000
  else if s.preview.duration = 0 then 30 else s.preview.duration

/-- Merged read model, `volume`. -/
def volumeView (s : CoordState) : Rat :=
  if isPremiumPlayer s then s.remote.volume else s.preview.volume

/-! ## Shared concrete fixtures -/

/-- A track with a preview clip. -/
def trackA : SpotifyTrack := ⟨"a", some "urlA"⟩

/-- A track without a preview clip (`preview_url: null`). -/
def trackB : SpotifyTrack := ⟨"b", none⟩

/-- The provider's state right after mount, before any event. -/
def baseCoord : CoordState :=
  { remote := initialPlayerState, localQueue := [], localIndex := 0
    localTrack := none, preview := initialPreviewState, audio := initialAudioElem }

/-! ## C6 — null `player_state_changed` payload -/

/-- C6: delivering `player_state_changed` with a null payload never throws,
sets `isActive := false` in the merged remote state, and leaves every other
remote field (`currentTrack`, `position`, `duration`, `isPaused`, `volume`,
`deviceId`, `isReady`) at its previous value. -/
theorem playerStateChanged_null_only_clears_isActive (s : PlayerState) :
    (playerStateChangedListener none s).isActive = false ∧
    playerStateChangedListener none s = { s with isActive := false } :=
  ⟨rfl, rfl⟩

/-! ## C9 — `not_ready` frame -/

/-- C9: the `not_ready` listener sets `isReady := false` and changes nothing
else — in particular `deviceId` is retained, the handler is total even when
`deviceId` was never set, and afterwards the coordinator's authority
predicate is false purely because `isReady` is false. -/
theorem notReady_only_clears_isReady (d : String) (s : PlayerState)
    (cs : CoordState) :
    notReadyListener d s = { s with isReady := false } ∧
    (notReadyListener d s).deviceId = s.deviceId ∧
    isPremiumPlayer { cs with remote := notReadyListener d cs.remote } = false :=
  ⟨rfl, rfl, rfl⟩

/-! ## C10 — `playTrack` without a queue is a frame for queue and index -/

/-- C10: `playTrack(track)` with no queue argument leaves `localQueue` and
`localIndex` unchanged in every branch (remote dispatch, successful preview
play, unplayable track) and replaces the locally-tracked current track. -/
theorem playTrack_noQueue_preserves_queue_and_index (t : SpotifyTrack)
    (s : CoordState) :
    (playTrack t none s).1.localQueue = s.localQueue ∧
    (playTrack t none s).1.localIndex = s.localIndex ∧
    (playTrack t none s).1.localTrack = some t := by
  unfold playTrack
  dsimp only
  split
  · exact ⟨rfl, rfl, rfl⟩
  · split
    · exact ⟨rfl, rfl, rfl⟩
    · exact ⟨rfl, rfl, rfl⟩

/-! ## C1 — authority predicate and `setVolume` dispatch -/

/-- State whose remote adapter reported ready with the empty-string device
id: `deviceId` is non-null, yet `!!(isReady && deviceId)` is false. -/
def emptyDeviceState : CoordState :=
  { baseCoord with
    remote := { initialPlayerState with isReady := true, deviceId := some "" } }

/-- State whose remote adapter is ready with device id `"dev1"`. -/
def readyDeviceState : CoordState :=
  { baseCoord with
    remote := { initialPlayerState with isReady := true, deviceId := some "dev1" } }

/-- C1 counterexample: with `isReady = true` and the non-null device id
`""`, the claim says the remote backend is authoritative, but
`isPremiumPlayer` tests JavaScript truthiness and is false, so `setVolume`
dispatches to the local fallback. -/
theorem authority_nonNull_deviceId_counterexample :
    emptyDeviceState.remote.isReady = true ∧
    emptyDeviceState.remote.deviceId ≠ none ∧
    isPremiumPlayer emptyDeviceState = false ∧
    (handleSetVolume (4/5) emptyDeviceState).2 = [Effect.audioSetVolume (4/5)] := by
  refine ⟨rfl, by decide, by decide, rfl⟩

/-- C1 amended: authority is a pure function of the remote adapter's
`(isReady, deviceId)` pair, true exactly when `isReady` holds and `deviceId`
is a non-null, NON-EMPTY string; `setVolume` dispatches to the remote
backend's `setVolume` when authoritative and to the local audio element
(also updating `previewState.volume`) otherwise. -/
theorem authority_truthy_and_setVolume_dispatch (s : CoordState) (v : Rat) :
    (isPremiumPlayer s = true ↔
      s.remote.isReady = true ∧ ∃ d, s.remote.deviceId = some d ∧ d ≠ "") ∧
    (isPremiumPlayer s = true →
      handleSetVolume v s = (s, [Effect.remoteSetVolume v])) ∧
    (isPremiumPlayer s = false →
      (handleSetVolume v s).2 = [Effect.audioSetVolume v] ∧
      (handleSetVolume v s).1.preview.volume = v ∧
      (handleSetVolume v s).1.audio.volume = v) := by
  refine ⟨?_, ?_, ?_⟩
  · unfold isPremiumPlayer truthyStr
    cases hd : s.remote.deviceId with
    | none => simp
    | some d => simp [Bool.and_eq_true, decide_eq_true_iff]
  · intro h
    simp [handleSetVolume, h]
  · intro h
    simp [handleSetVolume, h]

/-- Closed instantiation of the C1 theorem: with device `"dev1"` ready,
`setVolume` goes to the remote backend; with the falsy device id `""`, it
goes to the local audio element. -/
theorem authority_truthy_and_setVolume_dispatch_witness :
    handleSetVolume (4/5) readyDeviceState =
      (readyDeviceState, [Effect.remoteSetVolume (4/5)]) ∧
    (handleSetVolume (3/5) emptyDeviceState).2 = [Effect.audioSetVolume (3/5)] :=
  ⟨(authority_truthy_and_setVolume_dispatch readyDeviceState (4/5)).2.1 (by decide),
   ((authority_truthy_and_setVolume_dispatch emptyDeviceState (3/5)).2.2 (by decide)).1⟩

/-! ## C3 — local `playTrack` on a track without a preview URL -/

/-- A state in which a preview clip is currently playing. -/
def playingPreviewState : CoordState :=
  { baseCoord with preview := { initialPreviewState with isPlaying := true } }

/-- C3 counterexample: when a preview clip is already playing,
`playTrack` on a track with no preview URL leaves `isPlaying = true` — the
old clip keeps playing — so the call does not "result in a state where
isPlaying is false". -/
theorem playTrack_noPreview_counterexample :
    isPremiumPlayer playingPreviewState = false ∧
    trackB.preview_url = none ∧
    (playTrack trackB none playingPreviewState).1.preview.isPlaying = true := by
  refine ⟨by decide, rfl, by decide⟩

/-- C3 amended: with the local fallback authoritative, `playTrack` on a
track whose `preview_url` is falsy (null or empty) only replaces the
locally-tracked current track and emits no backend call; the preview state
— `isPlaying` in particular — is left exactly as it was (so it stays
`false` whenever it was `false`), and the call is total. -/
theorem playTrack_noPreview_is_inert (s : CoordState) (t : SpotifyTrack)
    (hprem : isPremiumPlayer s = false)
    (hurl : truthyStr t.preview_url = false) :
    playTrack t none s = ({ s with localTrack := some t }, []) := by
  simp only [playTrack, isPremiumPlayer] at hprem ⊢
  simp [hprem, hurl]

/-- Closed instantiation of the C3 theorem: from the freshly mounted state
(`isPlaying = false`), `playTrack` on the preview-less `trackB` leaves
`isPlaying = false` and performs no backend call. -/
theorem playTrack_noPreview_is_inert_witness :
    playTrack trackB none baseCoord = ({ baseCoord with localTrack := some trackB }, []) ∧
    (playTrack trackB none baseCoord).1.preview.isPlaying = false := by
  have h := playTrack_noPreview_is_inert baseCoord trackB (by decide) (by decide)
  exact ⟨h, by rw [h]; decide⟩

/-! ## C8 — merged read model units and duration default -/

/-- Remote-authoritative state with a position of 5000 ms out of 30000 ms. -/
def premiumPosState : CoordState :=
  { baseCoord with
    remote := { initialPlayerState with
      isReady := true, deviceId := some "dev1", position := 5000, duration := 30000 } }

/-- C8: in fallback mode an unknown (zero) preview duration is reported as
the 30-second policy default; in remote mode `progress` and `duration` are
the remote millisecond values divided by 1000, and a consumer `seek t` (in
seconds) reaches the remote backend as `t * 1000` milliseconds. -/
theorem mergedView_units_and_duration_default (s : CoordState) (t : Rat) :
    (isPremiumPlayer s = false → s.preview.duration = 0 → durationView s = 30) ∧
    (isPremiumPlayer s = true →
      progressView s = s.remote.position / 1000 ∧
      durationView s = s.remote.duration / 1000 ∧
      seek t s = (s, [Effect.remoteSeek (t * 1000)])) := by
  constructor
  · intro h hd
    simp [durationView, h, hd]
  · intro h
    refine ⟨?_, ?_, ?_⟩ <;> simp [progressView, durationView, seek, h]

/-- Closed instantiation of the C8 theorem: the mounted fallback state
reports the default 30-second duration, and the remote state with position
5000 ms reports 5 s progress while `seek 7` reaches the SDK as 7000 ms. -/
theorem mergedView_units_and_duration_default_witness :
    durationView baseCoord = 30 ∧
    progressView premiumPosState = 5 ∧
    seek 7 premiumPosState = (premiumPosState, [Effect.remoteSeek 7000]) := by
  have h1 := (mergedView_units_and_duration_default baseCoord 0).1 (by decide) (by decide)
  have h2 := (mergedView_units_and_duration_default premiumPosState 7).2 (by decide)
  refine ⟨h1, ?_, ?_⟩
  · rw [h2.1]; norm_num [premiumPosState]
  · rw [h2.2.2]; norm_num

/-! ## C5 — progress clamping -/

/-- Fallback state whose preview clip has a known 30-second duration. -/
def knownDurationState : CoordState :=
  { baseCoord with preview := { initialPreviewState with duration := 30 } }

/-- C5 counterexample: the local `seek` writes the requested time into
`progress` without clamping, so `seek 40` on a 30-second clip leaves the
merged read model with `progress = 40 > duration = 30`, violating the
claimed invariant `0 <= progress <= duration`. -/
theorem seek_breaks_progress_clamp_counterexample :
    progressView (seek 40 knownDurationState).1 = 40 ∧
    durationView (seek 40 knownDurationState).1 = 30 ∧
    ¬ progressView (seek 40 knownDurationState).1 ≤
        durationView (seek 40 knownDurationState).1 := by
  refine ⟨rfl, by decide, by decide⟩

/-- C5 amended: the remote position tick does maintain the invariant — from
a state with `0 ≤ position` and `0 ≤ duration` it produces
`0 ≤ position ≤ duration` — but the local `seek` performs no clamping: it
stores exactly the requested time in `previewState.progress`, so the
invariant can be violated by `seek`. -/
theorem positionTick_clamps_but_seek_does_not (s : PlayerState)
    (cs : CoordState) (t : Rat)
    (hpos : 0 ≤ s.position) (hdur : 0 ≤ s.duration) :
    (0 ≤ (positionTick s).position ∧
      (positionTick s).position ≤ (positionTick s).duration) ∧
    (isPremiumPlayer cs = false → (seek t cs).1.preview.progress = t) := by
  refine ⟨⟨?_, ?_⟩, ?_⟩
  · simp only [positionTick]
    exact le_min (by linarith) hdur
  · simp only [positionTick]
    exact min_le_right _ _
  · intro h
    simp [seek, h]

/-- Closed instantiation of the C5 theorem: one tick from 29500 ms of a
30000 ms track stays within `[0, duration]`, and a fallback `seek 12`
stores exactly 12. -/
theorem positionTick_clamps_but_seek_does_not_witness :
    (0 ≤ (positionTick { initialPlayerState with
        isActive := true, isPaused := false,
        position := 29500, duration := 30000 }).position ∧
      (positionTick { initialPlayerState with
        isActive := true, isPaused := false,
        position := 29500, duration := 30000 }).position ≤
      (positionTick { initialPlayerState with
        isActive := true, isPaused := false,
        position := 29500, duration := 30000 }).duration) ∧
    (seek 12 baseCoord).1.preview.progress = 12 := by
  have h := positionTick_clamps_but_seek_does_not
    { initialPlayerState with
        isActive := true, isPaused := false,
        position := 29500, duration := 30000 }
    baseCoord 12 (by decide) (by decide)
  exact ⟨h.1, h.2 (by decide)⟩

/-! ## C2 — clip-end auto-advance -/

/-- Queue `[trackA, trackB]` at index 0: the wrap-around next track is
`trackB`, which has no preview URL. -/
def endedNoUrlState : CoordState :=
  { baseCoord with localQueue := [trackA, trackB], localIndex := 0 }

/-- Queue `[trackB, trackA]` at index 0: the wrap-around next track is
`trackA`, which has a preview URL. -/
def endedUrlState : CoordState :=
  { baseCoord with localQueue := [trackB, trackA], localIndex := 0 }

/-- C2 counterexample: on clip-end with next track `trackB` (no preview
URL), the handler leaves `localIndex` at 0 and `localTrack` untouched — the
index is NOT advanced, contrary to the claim that it still advances. -/
theorem handleEnded_noUrl_counterexample :
    (endedNoUrlState.localIndex + 1) % endedNoUrlState.localQueue.length = 1 ∧
    (handleEnded endedNoUrlState).1.localIndex = 0 ∧
    (handleEnded endedNoUrlState).1.localTrack = none ∧
    (handleEnded endedNoUrlState).2 = [] := by
  refine ⟨by decide, by decide, by decide, rfl⟩

/-- C2 amended: on clip-end the handler selects the wrap-around next track
of the non-empty queue; when that track has a truthy preview URL it loads
and plays it, updating both `localIndex` and `localTrack` and setting
`isPlaying`; when the preview URL is falsy the handler only records
`isPlaying := false` — index and current track are left unchanged and no
audio starts — and in both cases the handler is total (never throws). -/
theorem handleEnded_advance (s : CoordState) (t : SpotifyTrack)
    (hget : s.localQueue.get? ((s.localIndex + 1) % s.localQueue.length) = some t) :
    (truthyStr t.preview_url = true →
      handleEnded s =
        ({ s with
            audio := { s.audio with src := some (t.preview_url.getD "") }
            localIndex := (s.localIndex + 1) % s.localQueue.length
            localTrack := some t
            preview := { s.preview with isPlaying := true } },
          [Effect.audioPlay (t.preview_url.getD "")])) ∧
    (truthyStr t.preview_url = false →
      handleEnded s =
        ({ s with preview := { s.preview with isPlaying := false } }, [])) := by
  have hlen : 0 < s.localQueue.length :=
    List.length_pos.mpr (List.ne_nil_of_mem (List.get?_mem hget))
  constructor
  · intro htr
    unfold handleEnded
    dsimp only
    rw [if_pos hlen, hget]
    dsimp only
    rw [if_pos htr]
  · intro htr
    unfold handleEnded
    dsimp only
    rw [if_pos hlen, hget]
    dsimp only
    rw [if_neg (by simp [htr])]

/-- Closed instantiation of the C2 theorem: from `[trackB, trackA]` at
index 0, clip-end advances to index 1, makes `trackA` current, starts its
preview and reports `isPlaying = true`. -/
theorem handleEnded_advance_witness :
    (handleEnded endedUrlState).1.localIndex = 1 ∧
    (handleEnded endedUrlState).1.localTrack = some trackA ∧
    (handleEnded endedUrlState).1.preview.isPlaying = true ∧
    (handleEnded endedUrlState).2 = [Effect.audioPlay "urlA"] := by
  have h := (handleEnded_advance endedUrlState trackA (by decide)).1 (by decide)
  refine ⟨?_, ?_, ?_, ?_⟩ <;> rw [h] <;> decide

/-! ## `findIndex` lemmas -/

/-- When no element of the queue carries the requested id, `findIndex`
reports no match (JavaScript it returns `-1`). -/
theorem findTrackIdx_eq_none_of_forall (id : String) (q : List SpotifyTrack)
    (h : ∀ x ∈ q, x.id ≠ id) : findTrackIdx id q = none := by
  induction q with
  | nil => rfl
  | cons a l ih =>
    have ha : a.id ≠ id := h a (List.mem_cons_self a l)
    simp only [findTrackIdx, if_neg ha]
    rw [ih (fun x hx => h x (List.mem_cons_of_mem a hx))]
    rfl

/-- `findIndex` returns the position of the first matching element. -/
theorem findTrackIdx_eq_some_first (id : String) (q : List SpotifyTrack)
    (j : Nat) (hj : j < q.length) (hid : (q.get ⟨j, hj⟩).id = id)
    (hfirst : ∀ k (hk : k < q.length), k < j → (q.get ⟨k, hk⟩).id ≠ id) :
    findTrackIdx id q = some j := by
  induction q generalizing j with
  | nil => cases hj
  | cons a l ih =>
    cases j with
    | zero =>
      have ha : a.id = id := hid
      simp only [findTrackIdx, if_pos ha]
    | succ j' =>
      have ha : a.id ≠ id :=
        hfirst 0 (Nat.succ_le_of_lt (Nat.zero_lt_succ _)) (Nat.zero_lt_succ _)
      simp only [findTrackIdx, if_neg ha]
      rw [ih j' (Nat.lt_of_succ_lt_succ hj) hid
        (fun k hk hkj => hfirst (k + 1) (Nat.succ_lt_succ hk) (Nat.succ_lt_succ hkj))]
      rfl

/-- When the queue's track ids are pairwise distinct, `findIndex` of the id
of the element at position `j` returns exactly `j`. -/
theorem findTrackIdx_get_of_nodup (q : List SpotifyTrack)
    (hnodup : (q.map SpotifyTrack.id).Nodup) (j : Nat) (hj : j < q.length) :
    findTrackIdx (q.get ⟨j, hj⟩).id q = some j := by
  apply findTrackIdx_eq_some_first _ _ j hj rfl
  intro k hk hkj heq
  have hk2 : k < (q.map SpotifyTrack.id).length := by simpa using hk
  have hj2 : j < (q.map SpotifyTrack.id).length := by simpa using hj
  have hm : (q.map SpotifyTrack.id).get ⟨k, hk2⟩ = (q.map SpotifyTrack.id).get ⟨j, hj2⟩ := by
    simp only [List.get_eq_getElem, List.getElem_map]
    exact heq
  have hkj' : k = j :=
    congrArg Fin.val ((List.Nodup.get_inj_iff hnodup).1 hm)
  omega

/-- `playTrack` with a supplied queue: the stored queue becomes that queue,
the index becomes the clamped `findIndex` result, the current track is
replaced, and the remote adapter's state is untouched — in every dispatch
branch. -/
theorem playTrack_withQueue_fields (t : SpotifyTrack) (q : List SpotifyTrack)
    (s : CoordState) :
    (playTrack t (some q) s).1.localQueue = q ∧
    (playTrack t (some q) s).1.localIndex = (findTrackIdx t.id q).getD 0 ∧
    (playTrack t (some q) s).1.remote = s.remote ∧
    (playTrack t (some q) s).1.localTrack = some t := by
  unfold playTrack
  dsimp only
  split
  · exact ⟨rfl, rfl, rfl, rfl⟩
  · split
    · exact ⟨rfl, rfl, rfl, rfl⟩
    · exact ⟨rfl, rfl, rfl, rfl⟩

/-! ## C7 — `playTrack` with a supplied queue -/

/-- C7: `playTrack(t, q)` replaces the queue by `q` and sets the current
index to the position of the first element of `q` whose id equals `t`'s id;
when no element of `q` matches, the index is set to `0` and no error is
raised (the call stays total). -/
theorem playTrack_withQueue_index_policy (t : SpotifyTrack)
    (q : List SpotifyTrack) (s : CoordState) :
    (playTrack t (some q) s).1.localQueue = q ∧
    ((∀ x ∈ q, x.id ≠ t.id) → (playTrack t (some q) s).1.localIndex = 0) ∧
    (∀ j (hj : j < q.length), (q.get ⟨j, hj⟩).id = t.id →
      (∀ k (hk : k < q.length), k < j → (q.get ⟨k, hk⟩).id ≠ t.id) →
      (playTrack t (some q) s).1.localIndex = j) := by
  obtain ⟨hq, hidx, -, -⟩ := playTrack_withQueue_fields t q s
  refine ⟨hq, ?_, ?_⟩
  · intro h
    rw [hidx, findTrackIdx_eq_none_of_forall t.id q h]
    rfl
  · intro j hj hjid hfirst
    rw [hidx, findTrackIdx_eq_some_first t.id q j hj hjid hfirst]
    rfl

/-- Closed instantiation of the C7 theorem: in queue `[trackB, trackA]`,
playing `trackA` selects index 1, and playing a track with an id absent
from the queue selects index 0. -/
theorem playTrack_withQueue_index_policy_witness :
    (playTrack trackA (some [trackB, trackA]) baseCoord).1.localIndex = 1 ∧
    (playTrack ⟨"z", none⟩ (some [trackB, trackA]) baseCoord).1.localIndex = 0 := by
  constructor
  · exact (playTrack_withQueue_index_policy trackA [trackB, trackA] baseCoord).2.2
      1 (by decide) (by decide)
      (by intro k hk hk1
          have hk0 : k = 0 := by omega
          subst hk0
          show trackB.id ≠ trackA.id
          decide)
  · exact (playTrack_withQueue_index_policy ⟨"z", none⟩ [trackB, trackA] baseCoord).2.1
      (by decide)

/-! ## C4 — next then previous round-trip -/

/-- Local-mode evaluation of `handleNextTrack`: when not remote-authoritative
and the wrap-around next element exists, the handler is exactly `playTrack`
of that element with the current queue. -/
theorem handleNextTrack_local (s : CoordState) (t : SpotifyTrack)
    (hprem : isPremiumPlayer s = false)
    (hget : s.localQueue.get? ((s.localIndex + 1) % s.localQueue.length) = some t) :
    handleNextTrack s = playTrack t (some s.localQueue) s := by
  have hlen : 0 < s.localQueue.length :=
    List.length_pos.mpr (List.ne_nil_of_mem (List.get?_mem hget))
  unfold handleNextTrack
  rw [hprem, if_neg Bool.false_ne_true, if_pos hlen]
  dsimp only
  rw [hget]

/-- Local-mode evaluation of `handlePreviousTrack`: when not
remote-authoritative and the wrap-around previous element exists, the
handler is exactly `playTrack` of that element with the current queue. -/
theorem handlePreviousTrack_local (s : CoordState) (t : SpotifyTrack)
    (hprem : isPremiumPlayer s = false)
    (hget : s.localQueue.get?
      (if s.localIndex = 0 then s.localQueue.length - 1 else s.localIndex - 1) =
      some t) :
    handlePreviousTrack s = playTrack t (some s.localQueue) s := by
  have hlen : 0 < s.localQueue.length :=
    List.length_pos.mpr (List.ne_nil_of_mem (List.get?_mem hget))
  unfold handlePreviousTrack
  rw [hprem, if_neg Bool.false_ne_true, if_pos hlen]
  dsimp only
  rw [hget]

/-- Queue with two different tracks sharing the id `"a"`, current index 1
(reachable: auto-advance can move the index past the first duplicate). -/
def dupIdQueueState : CoordState :=
  { baseCoord with localQueue := [trackA, ⟨"a", some "urlA2"⟩], localIndex := 1 }

/-- C4 counterexample: with duplicate track ids in the queue, `next` lands
on `findIndex` of the target id — the FIRST duplicate — so `next` then
`previous` from index 1 ends at index 0, not back at `1 % 2 = 1`. -/
theorem next_previous_dup_counterexample :
    dupIdQueueState.localIndex % dupIdQueueState.localQueue.length = 1 ∧
    isPremiumPlayer dupIdQueueState = false ∧
    (handlePreviousTrack (handleNextTrack dupIdQueueState).1).1.localIndex = 0 := by
  refine ⟨by decide, by decide, by decide⟩

/-- C4 amended: when the local fallback is authoritative and the queue's
track ids are pairwise distinct, `next` followed by `previous` returns the
current index to `localIndex % length`, both steps wrapping circularly at
the ends of the queue. -/
theorem next_then_previous_roundtrip (s : CoordState)
    (hprem : isPremiumPlayer s = false)
    (hlen : 0 < s.localQueue.length)
    (hnodup : (s.localQueue.map SpotifyTrack.id).Nodup) :
    (handlePreviousTrack (handleNextTrack s).1).1.localIndex =
      s.localIndex % s.localQueue.length := by
  have hj : (s.localIndex + 1) % s.localQueue.length < s.localQueue.length :=
    Nat.mod_lt _ hlen
  rw [handleNextTrack_local s
    (s.localQueue.get ⟨(s.localIndex + 1) % s.localQueue.length, hj⟩)
    hprem (List.get?_eq_get hj)]
  obtain ⟨hq1, hi1, hrem1, -⟩ :=
    playTrack_withQueue_fields
      (s.localQueue.get ⟨(s.localIndex + 1) % s.localQueue.length, hj⟩)
      s.localQueue s
  have hidx1 : (playTrack
      (s.localQueue.get ⟨(s.localIndex + 1) % s.localQueue.length, hj⟩)
      (some s.localQueue) s).1.localIndex =
      (s.localIndex + 1) % s.localQueue.length := by
    rw [hi1, findTrackIdx_get_of_nodup s.localQueue hnodup _ hj]
    rfl
  have hprem1 : isPremiumPlayer (playTrack
      (s.localQueue.get ⟨(s.localIndex + 1) % s.localQueue.length, hj⟩)
      (some s.localQueue) s).1 = false := by
    simp only [isPremiumPlayer] at hprem ⊢
    rw [hrem1]
    exact hprem
  have hk : (if (s.localIndex + 1) % s.localQueue.length = 0
      then s.localQueue.length - 1
      else (s.localIndex + 1) % s.localQueue.length - 1) < s.localQueue.length := by
    split
    · omega
    · omega
  have hget2 : (playTrack
      (s.localQueue.get ⟨(s.localIndex + 1) % s.localQueue.length, hj⟩)
      (some s.localQueue) s).1.localQueue.get?
      (if (playTrack
          (s.localQueue.get ⟨(s.localIndex + 1) % s.localQueue.length, hj⟩)
          (some s.localQueue) s).1.localIndex = 0
        then (playTrack
          (s.localQueue.get ⟨(s.localIndex + 1) % s.localQueue.length, hj⟩)
          (some s.localQueue) s).1.localQueue.length - 1
        else (playTrack
          (s.localQueue.get ⟨(s.localIndex + 1) % s.localQueue.length, hj⟩)
          (some s.localQueue) s).1.localIndex - 1) =
      some (s.localQueue.get ⟨_, hk⟩) := by
    rw [hq1, hidx1]
    exact List.get?_eq_get hk
  rw [handlePreviousTrack_local _ _ hprem1 hget2]
  obtain ⟨-, hi2, -, -⟩ :=
    playTrack_withQueue_fields (s.localQueue.get ⟨_, hk⟩)
      (playTrack
        (s.localQueue.get ⟨(s.localIndex + 1) % s.localQueue.length, hj⟩)
        (some s.localQueue) s).1.localQueue
      (playTrack
        (s.localQueue.get ⟨(s.localIndex + 1) % s.localQueue.length, hj⟩)
        (some s.localQueue) s).1
  rw [hi2]
  rw [hq1, findTrackIdx_get_of_nodup s.localQueue hnodup _ hk]
  show (if (s.localIndex + 1) % s.localQueue.length = 0
      then s.localQueue.length - 1
      else (s.localIndex + 1) % s.localQueue.length - 1) =
    s.localIndex % s.localQueue.length
  have hr : s.localIndex % s.localQueue.length < s.localQueue.length :=
    Nat.mod_lt _ hlen
  have hmod : (s.localIndex + 1) % s.localQueue.length =
      (s.localIndex % s.localQueue.length + 1) % s.localQueue.length :=
    (Nat.mod_add_mod s.localIndex s.localQueue.length 1).symm
  rcases Nat.lt_or_ge (s.localIndex % s.localQueue.length + 1) s.localQueue.length
    with hlt | hge
  · have he : (s.localIndex % s.localQueue.length + 1) % s.localQueue.length =
        s.localIndex % s.localQueue.length + 1 := Nat.mod_eq_of_lt hlt
    rw [hmod, he]
    simp
  · have hn : s.localIndex % s.localQueue.length + 1 = s.localQueue.length := by
      omega
    have he : (s.localIndex % s.localQueue.length + 1) % s.localQueue.length = 0 := by
      rw [hn]
      exact Nat.mod_self _
    rw [hmod, he]
    simp
    omega

/-- A distinct-id queue at index 1, local authority. -/
def distinctQueueState : CoordState :=
  { baseCoord with localQueue := [trackA, trackB], localIndex := 1 }

/-- Closed instantiation of the C4 theorem: on `[trackA, trackB]` from
index 1, `next` wraps to 0 and `previous` wraps back to `1 = 1 % 2`. -/
theorem next_then_previous_roundtrip_witness :
    (handlePreviousTrack (handleNextTrack distinctQueueState).1).1.localIndex =
      distinctQueueState.localIndex % distinctQueueState.localQueue.length :=
  next_then_previous_roundtrip distinctQueueState (by decide) (by decide) (by decide)
